import Mathlib

/-!
Shallow embedding of the koenvanwijk/roarm repository's core logic
(unit conversion, velocity limiting, safety clamping, the teleoperation
control loop, and configuration validation), with theorems settling the
specification claims about it.

Numeric values are modelled over `ℚ` (exact arithmetic); the degree↔radian
scalar conversions (`np.deg2rad` / `np.rad2deg`), which involve π, are kept
as abstract function parameters where they occur on a path a claim needs.
Python exceptions crossing a modelled boundary are represented with
`Except` / `Option`.
-/

namespace Roarm

/-- `np.clip(x, lo, hi)`, i.e. `min (max x lo) hi` (numpy applies the upper
bound last). Used throughout `roarm.py` and `roarm_teleoperator.py`. -/
def clip (x lo hi : ℚ) : ℚ := min (max x lo) hi

/-- `Roarm.send_action` (roarm.py lines 293-298): percentage → native degrees
for a joint with configured limits `(minDeg, maxDeg)`.  The input is clamped
to `[-100, 100]` and then affinely mapped onto `[minDeg, maxDeg]`. -/
def sendActionJointDeg (minDeg maxDeg value : ℚ) : ℚ :=
  let percentage := clip value (-100) 100
  minDeg + (percentage + 100) * (maxDeg - minDeg) / 200

/-- `Roarm.send_action` fallback branch (roarm.py line 301): a joint without
configured limits is treated as degrees and clamped to `[-180, 180]`. -/
def sendActionFallbackDeg (value : ℚ) : ℚ := clip value (-180) 180

/-- `Roarm.send_action` gripper branch (roarm.py lines 324-326): the gripper
command is converted from radians to degrees and clamped to `[0, 90]`.
`rad2deg` (the `np.rad2deg` scaling) is an abstract parameter. -/
def sendActionGripperDeg (rad2deg : ℚ → ℚ) (gripperRad : ℚ) : ℚ :=
  clip (rad2deg gripperRad) 0 90

/-- `RoarmTeleoperator.get_action` (roarm_teleoperator.py lines 167-175):
native degrees → percentage for a joint with limits `(minDeg, maxDeg)`;
the affine inverse map, clamped to `[-100, 100]` on the output side. -/
def getActionPercentage (minDeg maxDeg angleDeg : ℚ) : ℚ :=
  let percentage := (angleDeg - minDeg) / (maxDeg - minDeg) * 200 - 100
  clip percentage (-100) 100

/-- `np.sign`: `1` for positive, `-1` for negative, `0` for zero. -/
def npSign (x : ℚ) : ℚ := if 0 < x then 1 else if x < 0 then -1 else 0

/-- One velocity-limiting update for a key that already has a stored last
position (`RoarmActionSafety.forward`, processors.py lines 187-196): the
delta to the target is clamped to `±maxDelta` when its magnitude exceeds
`maxDelta`, where `maxDelta = max_velocity * dt`. -/
def limitStep (maxDelta last target : ℚ) : ℚ :=
  let delta := target - last
  if maxDelta < |delta| then last + npSign delta * maxDelta else target

/-- `RoarmActionSafety.forward` for one key (processors.py lines 183-198):
`none` means no stored last position (first call), which passes the target
through unmodified; otherwise `limitStep` applies. The returned value is
also the new stored position. -/
def safetyForward (maxDelta : ℚ) (last : Option ℚ) (target : ℚ) : ℚ :=
  match last with
  | none => target
  | some l => limitStep maxDelta l target

/-- Feeding a sequence of targets for one key through
`RoarmActionSafety.forward`, threading the stored last position. -/
def safetyRun (maxDelta : ℚ) : Option ℚ → List ℚ → List ℚ
  | _, [] => []
  | last, t :: ts =>
    let out := safetyForward maxDelta last t
    out :: safetyRun maxDelta (some out) ts

/-- `RoarmConfig.joint_names` default (config_roarm.py lines 27-34). -/
def defaultJointNames : List String :=
  ["shoulder_pan", "shoulder_lift", "elbow_flex", "wrist_flex", "wrist_roll", "gripper"]

/-- `RoarmConfig.joint_limits_deg` default (config_roarm.py lines 38-45). -/
def configJointLimitsDeg : List (String × (ℚ × ℚ)) :=
  [("shoulder_pan", (-190, 190)), ("shoulder_lift", (-110, 110)),
   ("elbow_flex", (-70, 190)), ("wrist_flex", (-110, 110)),
   ("wrist_roll", (-190, 190)), ("gripper", (-10, 100))]

/-- Lookup in `RoarmConfig.joint_limits_deg` (the `joint_name in
self.config.joint_limits_deg` test of roarm.py line 293). -/
def configJointLimit (j : String) : Option (ℚ × ℚ) :=
  (configJointLimitsDeg.find? fun kv => kv.1 == j).map (·.2)

/-- Python's substring test `pat in s` on strings. -/
def pyIn (pat s : String) : Bool := decide (pat.data <:+: s.data)

/-- The joint part of `Roarm.get_observation` (roarm.py lines 240-252).
`readResult = none` models `joints_angle_get()` raising: the `except` branch
fills every joint key with `0.0`.  A returned empty list is falsy
(`if angles:`), so no joint keys are produced at all; a list shorter than
`joint_names` makes `angles[i]` raise `IndexError`, again caught and
replaced by all zeros. Otherwise each angle is converted by `deg2rad`
(abstract parameter for `np.deg2rad`). -/
def getObservationJoints (names : List String) (deg2rad : ℚ → ℚ)
    (readResult : Option (List ℚ)) : List (String × ℚ) :=
  match readResult with
  | none => names.map fun j => (j ++ ".pos", (0 : ℚ))
  | some angles =>
    if angles.isEmpty then []
    else if angles.length < names.length then
      names.map fun j => (j ++ ".pos", (0 : ℚ))
    else
      (names.zip angles).map fun p => (p.1 ++ ".pos", deg2rad p.2)

/-- Outcome of `self.leader.get_observation()` as seen by the control loop
of teleoperation.py: either the call raised, or it returned an observation
mapping. -/
inductive ObsOutcome
  | raised
  | ok (obs : List (String × ℚ))

/-- One iteration body of `RoarmTeleop._control_loop` (teleoperation.py
lines 84-98): the `try` block reads the leader observation, extracts the
keys containing `".pos"` but not `"cam"`, and calls
`self.follower.send_action(action)`. Returns the action written to the
follower sink, or `none` when `get_observation` raised and the `except`
branch skipped the tick. -/
def controlTick (outcome : ObsOutcome) : Option (List (String × ℚ)) :=
  match outcome with
  | .raised => none
  | .ok obs => some (obs.filter fun kv => pyIn ".pos" kv.1 && !pyIn "cam" kv.1)

/-- The joint limits hard-coded in `RoarmTeleoperator.get_action`
(roarm_teleoperator.py lines 154-161), in the iteration order of
`joint_names` (line 165). -/
def teleJointLimits : List (String × (ℚ × ℚ)) :=
  [("shoulder_pan", (-190, 190)), ("shoulder_lift", (-110, 110)),
   ("elbow_flex", (-70, 190)), ("wrist_flex", (-110, 110)),
   ("wrist_roll", (-190, 190)), ("gripper", (-10, 100))]

/-- `RoarmTeleoperator.get_action` (roarm_teleoperator.py lines 136-177) on
a connected teleoperator, as a function of the `joints_angle_get()` result
(`none` models the SDK returning `None`). `Except.error` models the
`raise RuntimeError(...)` on a missing or too-short read (line 147-148);
otherwise the first six angles are converted to percentages. -/
def teleGetAction (angles : Option (List ℚ)) : Except String (List (String × ℚ)) :=
  match angles with
  | none => Except.error "Failed to read joint angles from teleoperator"
  | some a =>
    if a.length < 6 then Except.error "Failed to read joint angles from teleoperator"
    else Except.ok ((teleJointLimits.zip (a.take 6)).map fun p =>
      (p.1.1 ++ ".pos", getActionPercentage p.1.2.1 p.1.2.2 p.2))

/-- State of the `RoarmTeleop` loop (teleoperation.py): the `running` flag,
whether a tick body is currently executing, and how many ticks have begun. -/
structure LoopState where
  running : Bool
  inTick : Bool
  ticksStarted : ℕ

/-- Events of one teleoperation run, interleaving the loop thread with the
caller: `beginTick` is the `while self.running:` check passing and the tick
body starting (line 81), `endTick` is the tick body finishing, `stop` is the
caller running `stop()`, which sets `self.running = False` (line 67). -/
inductive LoopEvent
  | beginTick
  | endTick
  | stop

/-- Transition function for one event. A `beginTick` is only enabled when
`running` is true and no tick is in flight (the loop thread is sequential
and re-checks `running` at each tick boundary); a disabled event leaves the
state unchanged. -/
def loopStep (s : LoopState) : LoopEvent → LoopState
  | .beginTick =>
    if s.running && !s.inTick then
      { s with inTick := true, ticksStarted := s.ticksStarted + 1 }
    else s
  | .endTick => { s with inTick := false }
  | .stop => { s with running := false }

/-- Running a sequence of loop events from a state. -/
def loopExec (s : LoopState) : List LoopEvent → LoopState
  | [] => s
  | e :: es => loopExec (loopStep s e) es

/-- Everything `Roarm.send_action` (roarm.py lines 270-336) does that is
visible at its boundary: the degree list passed to `joints_angle_ctrl`, the
optional degree value passed to `gripper_angle_ctrl`, whether each SDK write
succeeded (the `try` bodies; a failure is only logged), and the returned
action. -/
structure SendResult where
  anglesDeg : List ℚ
  gripperDeg : Option ℚ
  jointWriteOk : Bool
  gripperWriteOk : Bool
  ret : List (String × ℚ)

/-- `key in action` / `action[key]` on the action mapping. -/
def lookupAction (action : List (String × ℚ)) (k : String) : Option ℚ :=
  (action.find? fun kv => kv.1 == k).map (·.2)

/-- `Roarm.send_action` (roarm.py lines 270-336). For each configured joint
name, an action entry is converted from percentage to degrees when limits
are configured, clamped as raw degrees otherwise; a missing entry falls back
to the current position (`get_observation`, parameterised here as
`currentPosRad`) converted by `rad2deg`. The gripper entry, when present and
`has_gripper` holds, is converted and clamped to `[0, 90]`. SDK write
failures (`jointWriteOk`, `gripperWriteOk`) are caught and logged. The input
`action` itself is returned unchanged (line 336). -/
def sendAction (jointNames : List String) (limits : String → Option (ℚ × ℚ))
    (hasGripper : Bool) (gripperName : String) (rad2deg : ℚ → ℚ)
    (currentPosRad : String → ℚ) (jointWriteOk gripperWriteOk : Bool)
    (action : List (String × ℚ)) : SendResult :=
  let anglesDeg := jointNames.map fun j =>
    match lookupAction action (j ++ ".pos") with
    | some v =>
      match limits j with
      | some lim => sendActionJointDeg lim.1 lim.2 v
      | none => sendActionFallbackDeg v
    | none => rad2deg (currentPosRad (j ++ ".pos"))
  let gripperDeg :=
    if hasGripper then
      (lookupAction action (gripperName ++ ".pos")).map fun g =>
        sendActionGripperDeg rad2deg g
    else none
  { anglesDeg := anglesDeg, gripperDeg := gripperDeg,
    jointWriteOk := jointWriteOk, gripperWriteOk := gripperWriteOk, ret := action }

/-- The two `ValueError` cases of `RoarmConfig.__post_init__`
(config_roarm.py lines 82-86). -/
inductive ConfigError
  | missingConnection
  | bothConnections

/-- `RoarmConfig.__post_init__` connection validation (config_roarm.py lines
78-86): `ValueError` when both `port` and `host` are `None`, `ValueError`
when both are set, success otherwise. -/
def roarmConfigPostInit (port host : Option String) : Except ConfigError Unit :=
  if port.isNone && host.isNone then Except.error ConfigError.missingConnection
  else if port.isSome && host.isSome then Except.error ConfigError.bothConnections
  else Except.ok ()

lemma clip_of_mem {x lo hi : ℚ} (h1 : lo ≤ x) (h2 : x ≤ hi) : clip x lo hi = x := by
  unfold clip
  rw [max_eq_left h1, min_eq_left h2]

lemma clip_le {x lo hi : ℚ} : clip x lo hi ≤ hi := min_le_right _ _

lemma le_clip {x lo hi : ℚ} (h : lo ≤ hi) : lo ≤ clip x lo hi :=
  le_min (le_max_right _ _) h

/-- **C1** For every joint with configured limits `minDeg < maxDeg` and every
percentage `p ∈ [-100, 100]`, converting `p` to a native degree value as in
`Roarm.send_action` and then back to a percentage as in
`RoarmTeleoperator.get_action` returns `p` exactly (round-trip law). -/
theorem sendAction_getAction_roundtrip (minDeg maxDeg p : ℚ)
    (hlt : minDeg < maxDeg) (h1 : -100 ≤ p) (h2 : p ≤ 100) :
    getActionPercentage minDeg maxDeg (sendActionJointDeg minDeg maxDeg p) = p := by
  have hne : maxDeg - minDeg ≠ 0 := sub_ne_zero.mpr (ne_of_gt hlt)
  unfold sendActionJointDeg getActionPercentage
  rw [clip_of_mem h1 h2]
  have key : (minDeg + (p + 100) * (maxDeg - minDeg) / 200 - minDeg) /
      (maxDeg - minDeg) * 200 - 100 = p := by
    field_simp
    ring
  rw [key, clip_of_mem h1 h2]

/-- Witness for the round-trip law at the elbow joint limits `(-70, 190)`
and percentage `37`. -/
theorem sendAction_getAction_roundtrip_witness :
    getActionPercentage (-70) 190 (sendActionJointDeg (-70) 190 37) = 37 :=
  sendAction_getAction_roundtrip (-70) 190 37 (by norm_num) (by norm_num) (by norm_num)

/-- **C5** `Roarm.send_action` clamps its percentage input to `[-100, 100]`
before the affine scaling: the conversion of any `v` equals the conversion of
`clip v (-100) 100`, and in particular converting `150` equals converting
`100`, for every joint. -/
theorem sendAction_clamps_first :
    (∀ minDeg maxDeg v : ℚ,
        sendActionJointDeg minDeg maxDeg v =
          sendActionJointDeg minDeg maxDeg (clip v (-100) 100)) ∧
    (∀ minDeg maxDeg : ℚ,
        sendActionJointDeg minDeg maxDeg 150 = sendActionJointDeg minDeg maxDeg 100) := by
  constructor
  · intro minDeg maxDeg v
    unfold sendActionJointDeg
    have : clip (clip v (-100) 100) (-100) 100 = clip v (-100) 100 :=
      clip_of_mem (le_clip (by norm_num)) clip_le
    rw [this]
  · intro minDeg maxDeg
    unfold sendActionJointDeg
    have h150 : clip (150 : ℚ) (-100) 100 = 100 := by
      unfold clip
      norm_num
    have h100 : clip (100 : ℚ) (-100) 100 = 100 := clip_of_mem (by norm_num) (by norm_num)
    rw [h150, h100]

/-- **C6** For the joint `elbow_flex`, whose configured limits in
`RoarmConfig.joint_limits_deg` are `(-70, 190)`, `Roarm.send_action` maps
percentage `0` to `60` native degrees, `100` to `190`, and `-100` to `-70`. -/
theorem elbow_flex_conversion_values :
    configJointLimit "elbow_flex" = some (-70, 190) ∧
    sendActionJointDeg (-70) 190 0 = 60 ∧
    sendActionJointDeg (-70) 190 100 = 190 ∧
    sendActionJointDeg (-70) 190 (-100) = -70 := by
  refine ⟨rfl, ?_, ?_, ?_⟩ <;> · unfold sendActionJointDeg clip; norm_num

end Roarm

namespace Roarm

lemma limitStep_abs_le (maxDelta last target : ℚ) (h : 0 ≤ maxDelta) :
    |limitStep maxDelta last target - last| ≤ maxDelta := by
  unfold limitStep
  by_cases hc : maxDelta < |target - last|
  · simp only [hc, if_true]
    have hne : target - last ≠ 0 := by
      intro h0
      rw [h0] at hc
      simp at hc
      exact absurd hc (not_lt.mpr h)
    unfold npSign
    rcases lt_trichotomy (0 : ℚ) (target - last) with hpos | hz | hneg
    · simp only [hpos, if_true]
      rw [add_sub_cancel_left, one_mul, abs_of_nonneg h]
    · exact absurd hz.symm hne
    · rw [if_neg (asymm hneg), if_pos hneg]
      rw [add_sub_cancel_left, abs_mul, abs_neg, abs_one, one_mul, abs_of_nonneg h]
  · simp only [hc, if_false]
    exact le_of_not_lt hc

/-- **C2** The velocity limiter of `RoarmActionSafety.forward`:
(1) with a stored last position and `0 ≤ max_velocity * dt`, each returned
value differs from the stored value by at most `max_velocity * dt` in
absolute value; (2) the first call for a key returns its target unmodified;
(3) with max step `3/10` (`max_velocity = 3.0`, `dt = 0.1`), the target
sequence `[0, 1, 1]` starting from no prior state yields `[0, 3/10, 6/10]`. -/
theorem velocity_limiter_spec :
    (∀ maxDelta l t : ℚ, 0 ≤ maxDelta →
        |safetyForward maxDelta (some l) t - l| ≤ maxDelta) ∧
    (∀ maxDelta t : ℚ, safetyForward maxDelta none t = t) ∧
    safetyRun (3/10) none [0, 1, 1] = [0, 3/10, 6/10] := by
  refine ⟨fun maxDelta l t h => limitStep_abs_le maxDelta l t h, fun _ _ => rfl, ?_⟩
  have s1 : safetyForward ((3 : ℚ)/10) none 0 = 0 := rfl
  have s2 : safetyForward ((3 : ℚ)/10) (some 0) 1 = 3/10 := by
    show limitStep ((3 : ℚ)/10) 0 1 = 3/10
    simp only [limitStep, npSign]
    rw [show (1 : ℚ) - 0 = 1 by norm_num, abs_one]
    norm_num
  have s3 : safetyForward ((3 : ℚ)/10) (some (3/10)) 1 = 6/10 := by
    show limitStep ((3 : ℚ)/10) (3/10) 1 = 6/10
    simp only [limitStep, npSign]
    rw [show (1 : ℚ) - 3/10 = 7/10 by norm_num,
      abs_of_nonneg (by norm_num : (0 : ℚ) ≤ 7/10)]
    norm_num
  simp only [safetyRun]
  rw [s1, s2, s3]

/-- Witness for the velocity-limiter step bound: with max step `3/10`, a
stored value `0`, and target `1`, the output `3/10` is within `3/10` of the
stored value. -/
theorem velocity_limiter_spec_witness :
    |safetyForward (3/10) (some 0) 1 - 0| ≤ 3/10 :=
  velocity_limiter_spec.1 (3/10) 0 1 (by norm_num)

/-- **C4** Safety clamping in `Roarm.send_action`:
(1) for a joint with limits `minDeg ≤ maxDeg`, the native degree value
dispatched to the SDK lies in `[minDeg, maxDeg]` for every input;
(2) a percentage already in `[-100, 100]` is not altered by the clamp;
(3) a native value already in `[minDeg, maxDeg]` is reproduced exactly by
the dispatch of its percentage preimage;
(4) the gripper command dispatched lies in `[0, 90]`, and a gripper degree
value already in `[0, 90]` passes through the clamp unchanged. -/
theorem send_action_bounds :
    (∀ minDeg maxDeg v : ℚ, minDeg ≤ maxDeg →
        minDeg ≤ sendActionJointDeg minDeg maxDeg v ∧
          sendActionJointDeg minDeg maxDeg v ≤ maxDeg) ∧
    (∀ v : ℚ, -100 ≤ v → v ≤ 100 → clip v (-100) 100 = v) ∧
    (∀ minDeg maxDeg v : ℚ, minDeg < maxDeg → minDeg ≤ v → v ≤ maxDeg →
        sendActionJointDeg minDeg maxDeg (getActionPercentage minDeg maxDeg v) = v) ∧
    (∀ f : ℚ → ℚ, ∀ g : ℚ,
        0 ≤ sendActionGripperDeg f g ∧ sendActionGripperDeg f g ≤ 90 ∧
          (0 ≤ f g → f g ≤ 90 → sendActionGripperDeg f g = f g)) := by
  refine ⟨?_, fun v h1 h2 => clip_of_mem h1 h2, ?_, ?_⟩
  · intro minDeg maxDeg v hle
    unfold sendActionJointDeg
    have hlo : (-100 : ℚ) ≤ clip v (-100) 100 := le_clip (by norm_num)
    have hhi : clip v (-100) 100 ≤ 100 := clip_le
    constructor
    · nlinarith
    · nlinarith
  · intro minDeg maxDeg v hlt h1 h2
    have hpos : (0 : ℚ) < maxDeg - minDeg := sub_pos.mpr hlt
    have hne : maxDeg - minDeg ≠ 0 := ne_of_gt hpos
    unfold getActionPercentage
    have hq1 : (0 : ℚ) ≤ (v - minDeg) / (maxDeg - minDeg) :=
      div_nonneg (sub_nonneg.mpr h1) (le_of_lt hpos)
    have hq2 : (v - minDeg) / (maxDeg - minDeg) ≤ 1 :=
      (div_le_one hpos).mpr (sub_le_sub_right h2 minDeg)
    have hmem : clip ((v - minDeg) / (maxDeg - minDeg) * 200 - 100) (-100) 100 =
        (v - minDeg) / (maxDeg - minDeg) * 200 - 100 :=
      clip_of_mem (by nlinarith) (by nlinarith)
    rw [hmem]
    unfold sendActionJointDeg
    rw [clip_of_mem (by nlinarith) (by nlinarith)]
    field_simp
    ring
  · intro f g
    refine ⟨le_clip (by norm_num), clip_le, fun h1 h2 => clip_of_mem h1 h2⟩

/-- Witness for the safety-clamping theorem at the elbow joint limits
`(-70, 190)` and inputs `150` (joint, out of range), `60` (native,
in range), and a gripper command reading `45`. -/
theorem send_action_bounds_witness :
    (-70 ≤ sendActionJointDeg (-70) 190 150 ∧ sendActionJointDeg (-70) 190 150 ≤ 190) ∧
    sendActionJointDeg (-70) 190 (getActionPercentage (-70) 190 60) = 60 ∧
    sendActionGripperDeg id 45 = 45 :=
  ⟨send_action_bounds.1 (-70) 190 150 (by norm_num),
   send_action_bounds.2.2.1 (-70) 190 60 (by norm_num) (by norm_num) (by norm_num),
   (send_action_bounds.2.2.2 id 45).2.2 (by norm_num) (by norm_num)⟩

/-- **C3 counterexample** A concrete control-loop tick in which the source
adapter's joint-angle read fails (`joints_angle_get` raises, modelled by
`none`): `Roarm.get_observation` catches the failure and returns an all-zero
observation, so the loop body still invokes the sink's `send_action` with a
zero action — contradicting the claim that the sink write is skipped. -/
theorem tick_on_joint_read_failure_invokes_sink :
    controlTick (ObsOutcome.ok (getObservationJoints defaultJointNames id none)) =
      some [("shoulder_pan.pos", 0), ("shoulder_lift.pos", 0), ("elbow_flex.pos", 0),
        ("wrist_flex.pos", 0), ("wrist_roll.pos", 0), ("gripper.pos", 0)] := by
  rfl

/-- **C3 amended** The teleoperation loop skips a tick (no sink write) only
when `get_observation` itself raises; a joint-angle read failure inside
`Roarm.get_observation` is caught there and converted into an all-zero
observation, and the sink's `send_action` is then invoked with that zero
action. -/
theorem tick_skip_only_on_observation_raise :
    controlTick ObsOutcome.raised = none ∧
    controlTick (ObsOutcome.ok (getObservationJoints defaultJointNames id none)) =
      some (defaultJointNames.map fun j => (j ++ ".pos", (0 : ℚ))) :=
  ⟨rfl, rfl⟩

/-- **C7 counterexample** `RoarmTeleoperator.get_action` raises
`RuntimeError` (modelled as `Except.error`) past the adapter boundary when
the joint-angle read fails, rather than returning a fallback outcome. -/
theorem teleoperator_read_failure_raises :
    teleGetAction none = Except.error "Failed to read joint angles from teleoperator" :=
  rfl

/-- **C7 amended** On a joint-angle read failure, `Roarm.get_observation`
does not raise but substitutes zero for every joint — an outcome
indistinguishable from a genuine all-zero reading — while
`RoarmTeleoperator.get_action` raises `RuntimeError` past the adapter
boundary when the read fails or yields fewer than six angles. -/
theorem read_failure_fallback_behavior :
    (∀ (names : List String) (deg2rad : ℚ → ℚ),
        getObservationJoints names deg2rad none =
          names.map fun j => (j ++ ".pos", (0 : ℚ))) ∧
    getObservationJoints defaultJointNames id none =
      getObservationJoints defaultJointNames id (some (List.replicate 6 0)) ∧
    teleGetAction (some [1, 2, 3]) =
      Except.error "Failed to read joint angles from teleoperator" :=
  ⟨fun _ _ => rfl, rfl, rfl⟩

lemma loopExec_stopped (es : List LoopEvent) :
    ∀ s : LoopState, s.running = false →
      (loopExec s es).running = false ∧ (loopExec s es).ticksStarted = s.ticksStarted := by
  induction es with
  | nil => exact fun s h => ⟨h, rfl⟩
  | cons e es ih =>
    intro s h
    have hstep : (loopStep s e).running = false ∧
        (loopStep s e).ticksStarted = s.ticksStarted := by
      cases e with
      | beginTick => simp [loopStep, h]
      | endTick => simp [loopStep, h]
      | stop => simp [loopStep]
    obtain ⟨h1, h2⟩ := hstep
    obtain ⟨h3, h4⟩ := ih (loopStep s e) h1
    exact ⟨h3, by rw [loopExec, h4, h2]⟩

/-- **C8** In the interleaving model of `RoarmTeleop`: once `stop()` has set
`running` to false, no further tick begins in any continuation of the run
(`ticksStarted` never increases, because the loop observes `running` at tick
boundaries), the loop stays stopped, and the in-flight tick can still
complete (`endTick` clears `inTick`), after which the loop is idle. -/
theorem stop_prevents_next_tick (s : LoopState) (es : List LoopEvent) :
    (loopExec (loopStep s LoopEvent.stop) es).ticksStarted = s.ticksStarted ∧
    (loopExec (loopStep s LoopEvent.stop) es).running = false ∧
    (loopStep (loopStep s LoopEvent.stop) LoopEvent.endTick).inTick = false := by
  obtain ⟨h1, h2⟩ := loopExec_stopped es (loopStep s LoopEvent.stop) rfl
  exact ⟨h2, h1, rfl⟩

/-- **C9** `Roarm.send_action` returns exactly its input action, with
unchanged keys and values, regardless of the configuration, the conversion
functions, the current position fallback, and the success of the SDK joint
and gripper writes; concretely, with the default configuration an input of
`150` for `elbow_flex` is dispatched clamped to `190` native degrees while
the returned action still holds `150`. -/
theorem send_action_returns_input
    (jointNames : List String) (limits : String → Option (ℚ × ℚ))
    (hasGripper : Bool) (gripperName : String) (rad2deg : ℚ → ℚ)
    (currentPosRad : String → ℚ) (jw gw : Bool) (action : List (String × ℚ)) :
    (sendAction jointNames limits hasGripper gripperName rad2deg currentPosRad
        jw gw action).ret = action ∧
    (sendAction defaultJointNames configJointLimit true "gripper" id (fun _ => 0)
        false false [("elbow_flex.pos", 150)]).anglesDeg = [0, 0, 190, 0, 0, 0] ∧
    (sendAction defaultJointNames configJointLimit true "gripper" id (fun _ => 0)
        false false [("elbow_flex.pos", 150)]).ret = [("elbow_flex.pos", 150)] := by
  refine ⟨rfl, ?_, rfl⟩
  have helbow : sendActionJointDeg (-70) 190 150 = 190 := by
    unfold sendActionJointDeg clip
    norm_num
  show [(0 : ℚ), 0, sendActionJointDeg (-70) 190 150, 0, 0, 0] = [0, 0, 190, 0, 0, 0]
  rw [helbow]

/-- **C10** `RoarmConfig.__post_init__` accepts a configuration exactly when
exactly one of the serial `port` and the WiFi `host` is specified: both
`None` raises `ValueError`, both set raises `ValueError`. -/
theorem config_requires_exactly_one_connection :
    (∀ port host : Option String,
        roarmConfigPostInit port host = Except.ok () ↔ port.isSome = !host.isSome) ∧
    roarmConfigPostInit none none = Except.error ConfigError.missingConnection ∧
    roarmConfigPostInit (some "/dev/ttyUSB0") (some "192.168.86.43") =
      Except.error ConfigError.bothConnections := by
  refine ⟨?_, rfl, rfl⟩
  intro port host
  cases port <;> cases host <;> simp [roarmConfigPostInit]

end Roarm
